import Mathlib

/-!
Verification of the text-reordering and link-extraction pipeline of the
klassijs-smart-ocr repository (src/smartOcr.js).

The JavaScript code is shallowly embedded: strings are processed as lists of
characters, the regular expressions appearing in the source are transcribed
into a small executable regex core (type RE below) with JavaScript semantics
(leftmost match, greedy repetition with backtracking, first-alternative
priority, word boundaries), and the stable Array.prototype.sort of ES2019 is
modelled by stable insertion sort.
-/

/-! ### Character classes (JavaScript semantics) -/

/-- JavaScript whitespace class: the set matched by the regex class for
whitespace and trimmed by String.prototype.trim. -/
def isJsSpace (c : Char) : Bool :=
  let n := c.toNat
  n == 32 || n == 9 || n == 10 || n == 13 || n == 11 || n == 12 ||
  n == 160 || n == 0x1680 || (0x2000 ≤ n && n ≤ 0x200a) ||
  n == 0x2028 || n == 0x2029 || n == 0x202f || n == 0x205f ||
  n == 0x3000 || n == 0xfeff

def isUpperAZ (c : Char) : Bool := 'A' ≤ c && c ≤ 'Z'

def isLowerAZ (c : Char) : Bool := 'a' ≤ c && c ≤ 'z'

def isLetterAZ (c : Char) : Bool := isUpperAZ c || isLowerAZ c

def isDigitCh (c : Char) : Bool := '0' ≤ c && c ≤ '9'

/-- JavaScript regex word character (the class used by word boundaries). -/
def isWordChar (c : Char) : Bool := isLetterAZ c || isDigitCh c || c == '_'

def optWord : Option Char → Bool
  | some c => isWordChar c
  | none => false

/-! ### Basic string operations (on lists of characters) -/

/-- JavaScript String.prototype.trim (both ends, JS whitespace class). -/
def jsTrim (l : List Char) : List Char :=
  ((l.dropWhile isJsSpace).reverse.dropWhile isJsSpace).reverse

/-- JavaScript text.split of a newline: split at every newline character. -/
def splitNl : List Char → List (List Char)
  | [] => [[]]
  | c :: r =>
    if c == '\n' then [] :: splitNl r
    else
      match splitNl r with
      | [] => [[c]]
      | l :: ls => (c :: l) :: ls

/-- JavaScript Array.prototype.join of lines with a newline separator. -/
def joinNl : List (List Char) → List Char
  | [] => []
  | [l] => l
  | l :: ls => l ++ '\n' :: joinNl ls

def toLowerL (l : List Char) : List Char := l.map Char.toLower

def hasPrefixL : List Char → List Char → Bool
  | [], _ => true
  | _ :: _, [] => false
  | p :: ps, c :: cs => p == c && hasPrefixL ps cs

/-- JavaScript String.prototype.includes. -/
def containsSub (hay pat : List Char) : Bool :=
  match hay with
  | [] => pat.isEmpty
  | _ :: r => hasPrefixL pat hay || containsSub r pat

/-! ### A small regex core with JavaScript matching semantics

Each regex literal of the source is transcribed into a value of type RE.
Matching produces the list of all possible outcomes in JavaScript
backtracking priority order (greedy repetitions longest first, alternatives
left first), so the head of the list is exactly the match JavaScript commits
to. Recursion is fuelled so that every definition is structural and reduces
inside the kernel. -/

structure MState where
  rest : List Char
  prev : Option Char
  caps : List (Nat × List Char)
deriving Repr, DecidableEq

inductive RE where
  | eps : RE
  | cls (p : Char → Bool) : RE
  | clsRep (p : Char → Bool) (lo : Nat) (hi : Option Nat) : RE
  | lit (cs : List Char) (ci : Bool) : RE
  | seq (a b : RE) : RE
  | alt (a b : RE) : RE
  | opt (r : RE) : RE
  | star (r : RE) : RE
  | wb : RE
  | grp (n : Nat) (r : RE) : RE

def litMatch (ci : Bool) : List Char → MState → Option MState
  | [], st => some st
  | c :: cs, st =>
    match st.rest with
    | [] => none
    | d :: r =>
      if (if ci then d.toLower == c.toLower else d == c) then
        litMatch ci cs { st with rest := r, prev := some d }
      else none

/-- Greedy bounded character-class repetition: all admissible match lengths,
longest first. -/
def clsRepRun : Nat → (Char → Bool) → Nat → Option Nat → Nat → MState → List MState
  | 0, _, lo, _, count, st => if lo ≤ count then [st] else []
  | fuel + 1, p, lo, hi, count, st =>
    let deeper :=
      if (match hi with | some h => Nat.blt count h | none => true) then
        match st.rest with
        | c :: r =>
          if p c then clsRepRun fuel p lo hi (count + 1) { st with rest := r, prev := some c }
          else []
        | [] => []
      else []
    deeper ++ (if lo ≤ count then [st] else [])

/-- Backtracking matcher. Results are in JavaScript priority order. -/
def mrun : Nat → RE → MState → List MState
  | 0, _, _ => []
  | fuel + 1, re, st =>
    match re with
    | .eps => [st]
    | .wb => if optWord st.prev != optWord st.rest.head? then [st] else []
    | .cls p =>
      match st.rest with
      | [] => []
      | c :: r => if p c then [{ st with rest := r, prev := some c }] else []
    | .clsRep p lo hi => clsRepRun fuel p lo hi 0 st
    | .lit cs ci =>
      match litMatch ci cs st with
      | some st2 => [st2]
      | none => []
    | .seq a b => (mrun fuel a st).flatMap (mrun fuel b)
    | .alt a b => mrun fuel a st ++ mrun fuel b st
    | .opt r => mrun fuel r st ++ [st]
    | .star r =>
      ((mrun fuel r st).filter (fun st2 => st2.rest.length < st.rest.length)).flatMap
        (fun st2 => mrun fuel (.star r) st2) ++ [st]
    | .grp n r =>
      (mrun fuel r st).map (fun st2 =>
        { st2 with caps := st2.caps ++ [(n, st.rest.take (st.rest.length - st2.rest.length))] })

def reSize : RE → Nat
  | .eps => 1
  | .cls _ => 1
  | .clsRep _ _ _ => 2
  | .lit _ _ => 1
  | .seq a b => 1 + reSize a + reSize b
  | .alt a b => 1 + reSize a + reSize b
  | .opt r => 1 + reSize r
  | .star r => 1 + reSize r
  | .wb => 1
  | .grp _ r => 1 + reSize r

/-- Fuel that is comfortably sufficient for the patterns of this development. -/
def mfuel (re : RE) (l : List Char) : Nat := (l.length + 2) * (reSize re + 2) + 8

def matchResultsAt (re : RE) (prev : Option Char) (l : List Char) : List MState :=
  mrun (mfuel re l) re { rest := l, prev := prev, caps := [] }

/-- Test of an anchored pattern (regex beginning with a start anchor). -/
def reTestStart (re : RE) (l : List Char) : Bool :=
  !(matchResultsAt re none l).isEmpty

/-- Test of a fully anchored pattern (start and end anchors). -/
def reTestFull (re : RE) (l : List Char) : Bool :=
  (matchResultsAt re none l).any (fun st => st.rest.isEmpty)

/-- Unanchored existence test (JavaScript match against an unanchored regex
is non-null): scan every start position. -/
def reSearchGo : Nat → RE → Option Char → List Char → Bool
  | 0, _, _, _ => false
  | fuel + 1, re, prev, l =>
    !(matchResultsAt re prev l).isEmpty ||
      (match l with
       | [] => false
       | c :: r => reSearchGo fuel re (some c) r)

def reSearch (re : RE) (l : List Char) : Bool :=
  reSearchGo (l.length + 1) re none l

/-- All matches of a global regex, scanning left to right and continuing
after each match, as JavaScript String.prototype.match with the global flag. -/
def reFindAllGo : Nat → RE → Option Char → List Char → List (List Char)
  | 0, _, _, _ => []
  | fuel + 1, re, prev, l =>
    match (matchResultsAt re prev l).head? with
    | some st2 =>
      let k := l.length - st2.rest.length
      let m := l.take k
      if k == 0 then
        m :: (match l with
              | [] => []
              | c :: r => reFindAllGo fuel re (some c) r)
      else m :: reFindAllGo fuel re st2.prev st2.rest
    | none =>
      match l with
      | [] => []
      | c :: r => reFindAllGo fuel re (some c) r

def reFindAll (re : RE) (l : List Char) : List (List Char) :=
  reFindAllGo (l.length + 1) re none l

/-! ### Replacement (String.prototype.replace with the global flag) -/

inductive ReplPart where
  | lit (s : List Char) : ReplPart
  | cap (n : Nat) : ReplPart

def Repl : Type := List ReplPart

def instRepl (rp : Repl) (caps : List (Nat × List Char)) : List Char :=
  rp.flatMap (fun part =>
    match part with
    | .lit s => s
    | .cap n => ((caps.find? (fun pr => pr.1 == n)).map (fun pr => pr.2)).getD [])

def reReplaceGo : Nat → RE → Repl → Option Char → List Char → List Char
  | 0, _, _, _, l => l
  | fuel + 1, re, rp, prev, l =>
    match (matchResultsAt re prev l).head? with
    | some st2 =>
      let k := l.length - st2.rest.length
      let ins := instRepl rp st2.caps
      if k == 0 then
        match l with
        | [] => ins
        | c :: r => ins ++ c :: reReplaceGo fuel re rp (some c) r
      else ins ++ reReplaceGo fuel re rp st2.prev st2.rest
    | none =>
      match l with
      | [] => []
      | c :: r => c :: reReplaceGo fuel re rp (some c) r

def reReplaceAll (re : RE) (rp : Repl) (l : List Char) : List Char :=
  reReplaceGo (l.length + 1) re rp none l

/-! ### Regex builders -/

def slit (s : String) (ci : Bool) : RE := .lit s.toList ci

def cseq : List RE → RE
  | [] => .eps
  | [r] => r
  | r :: rs => .seq r (cseq rs)

def calt : List RE → RE
  | [] => .eps
  | [r] => r
  | r :: rs => .alt r (calt rs)

/-- A whitespace-star, as the regex fragment of zero or more whitespace. -/
def sS : RE := .clsRep isJsSpace 0 none

/-- One or more whitespace. -/
def sP : RE := .clsRep isJsSpace 1 none

def digitsPlus : RE := .clsRep isDigitCh 1 none

/-! ### Line classification (fixTextOrdering, lines 174-247 of smartOcr.js)

Each regex literal of the classifier is transcribed below; the caret anchor
of the source regex is expressed by testing at the start of the line
(reTestStart), a caret-dollar pair by reTestFull, and an unanchored regex by
reSearch. -/

def headerRE : RE := calt [slit "title" true, slit "subject" true, slit "to:" true,
  slit "from:" true, slit "date:" true, slit "re:" true, slit "cc:" true, slit "bcc:" true]

def allCapsRE : RE :=
  cseq [.cls isUpperAZ, .clsRep (fun c => isUpperAZ c || isJsSpace c) 3 none]

def docTypeRE : RE := calt [slit "report" true, slit "document" true, slit "memo" true,
  slit "letter" true, slit "email" true, slit "fax" true]

def pageNumRE : RE :=
  cseq [.wb, calt [slit "page" true, slit "p." true, slit "pg." true], sS, digitsPlus]

def dateRE : RE := cseq [.wb, .clsRep isDigitCh 1 (some 2), slit "/" false,
  .clsRep isDigitCh 1 (some 2), slit "/" false, .clsRep isDigitCh 4 (some 4), .wb]

def copyrightRE : RE :=
  cseq [.wb, calt [slit "©" true, slit "copyright" true, slit "all rights reserved" true]]

def statusRE : RE :=
  cseq [.wb, calt [slit "confidential" true, slit "private" true, slit "draft" true,
    slit "internal" true]]

def numberedListRE : RE := cseq [digitsPlus, slit "." false, .cls isJsSpace]

def letteredListRE : RE := cseq [.cls isLowerAZ, slit ")" false, .cls isJsSpace]

def bulletListRE : RE :=
  cseq [.cls (fun c => c == '-' || c == '*' || c == '•'), .cls isJsSpace]

def conclusionRE1 : RE := calt [slit "therefore" true, slit "thus" true,
  slit "consequently" true, slit "as a result" true]

def conclusionRE2 : RE := calt [slit "in conclusion" true, slit "summary" true,
  slit "finally" true]

inductive LineType where
  | title | document_type | header | page_number | date | copyright | status
  | numbered_list | lettered_list | bullet_list | conclusion | content
deriving DecidableEq, Repr

/-- The classification fields produced for one line: lineType, priority and
the header and footer flags. -/
structure ClassR where
  lineType : LineType
  priority : Nat
  isHeader : Bool
  isFooter : Bool
deriving DecidableEq, Repr

/-- The four sequential rule chains of the source (header chain, footer
chain, list chain, flow chain) as a function of the twelve pattern-match
results. Later chains overwrite lineType and priority, exactly as the
source's successive if statements reassign the mutable variables. -/
def classifyCore (h1 h2 h3 f1 f2 f3 f4 n1 n2 n3 c1 c2 : Bool) : ClassR :=
  let r1 : ClassR :=
    if h1 then ⟨.header, 1, true, false⟩
    else if h2 then ⟨.title, 1, true, false⟩
    else if h3 then ⟨.document_type, 2, true, false⟩
    else ⟨.content, 0, false, false⟩
  let r2 : ClassR :=
    if f1 then ⟨.page_number, 100, r1.isHeader, true⟩
    else if f2 then ⟨.date, 90, r1.isHeader, true⟩
    else if f3 then ⟨.copyright, 95, r1.isHeader, true⟩
    else if f4 then ⟨.status, 85, r1.isHeader, true⟩
    else r1
  let r3 : ClassR :=
    if n1 then { r2 with lineType := .numbered_list, priority := 50 }
    else if n2 then { r2 with lineType := .lettered_list, priority := 50 }
    else if n3 then { r2 with lineType := .bullet_list, priority := 50 }
    else r2
  if c1 then { r3 with lineType := .conclusion, priority := 80 }
  else if c2 then { r3 with lineType := .conclusion, priority := 80 }
  else r3

/-- A classified line, as built inside fixTextOrdering. -/
structure ALine where
  originalIndex : Nat
  text : List Char
  lineType : LineType
  priority : Nat
  isHeader : Bool
  isFooter : Bool
  originalLine : List Char
deriving DecidableEq, Repr

/-- The twelve pattern tests of the classifier applied to a trimmed line,
fed into the rule chains. -/
def classROf (t : List Char) : ClassR :=
  classifyCore
    (reTestStart headerRE t) (reTestFull allCapsRE t) (reTestStart docTypeRE t)
    (reSearch pageNumRE t) (reSearch dateRE t) (reSearch copyrightRE t) (reSearch statusRE t)
    (reTestStart numberedListRE t) (reTestStart letteredListRE t) (reTestStart bulletListRE t)
    (reTestStart conclusionRE1 t) (reTestStart conclusionRE2 t)

def classifyLine (index : Nat) (line : List Char) : ALine :=
  ⟨index, jsTrim line, (classROf (jsTrim line)).lineType, (classROf (jsTrim line)).priority,
   (classROf (jsTrim line)).isHeader, (classROf (jsTrim line)).isFooter, line⟩

/-- The analyzedLines array: classification of every line with its index. -/
def analyzeFrom (i : Nat) : List (List Char) → List ALine
  | [] => []
  | l :: ls => classifyLine i l :: analyzeFrom (i + 1) ls

/-! ### Block segmentation and reordering (lines 249-336) -/

def natDist (a b : Nat) : Nat := if b ≤ a then a - b else b - a

def shouldStartNewBlockInOrdering (line : ALine) (nextLine : Option ALine)
    (currentBlock : List ALine) : Bool :=
  if line.isHeader && line.lineType == .title then true
  else if line.isHeader && line.lineType == .document_type then true
  else if line.isFooter then true
  else if (match currentBlock.getLast? with
           | some lastLine => Nat.blt 60 (natDist line.text.length lastLine.text.length)
           | none => false) then true
  else match nextLine with
       | some nl => nl.isHeader && nl.lineType == .title
       | none => false

/-- The block-building loop of fixTextOrdering: flush the open block when a
trigger fires and the open block is non-empty, then append the line. -/
def segmentGo (current : List ALine) : List ALine → List (List ALine)
  | [] => if current.isEmpty then [] else [current]
  | l :: rest =>
    if shouldStartNewBlockInOrdering l rest.head? current && !current.isEmpty then
      current :: segmentGo [l] rest
    else segmentGo (current ++ [l]) rest

def contentBlocksOf (als : List ALine) : List (List ALine) := segmentGo [] als

def getBlockOrderInOrdering (block : List ALine) : Nat :=
  match block.head? with
  | none => 90
  | some firstLine =>
    if firstLine.lineType == .title then 1
    else if firstLine.lineType == .document_type then 2
    else if firstLine.isHeader then 10
    else if !firstLine.isHeader && !firstLine.isFooter then 50
    else if firstLine.isFooter then 100
    else 90

/-- ES2019 Array.prototype.sort with the comparator of line 274 is a stable
sort by the block order key; its unique result is that of stable insertion
sort. -/
def sortBlocksInOrdering (blocks : List (List ALine)) : List (List ALine) :=
  List.insertionSort
    (fun a b => getBlockOrderInOrdering a ≤ getBlockOrderInOrdering b) blocks

/-- The non-empty lines of the text: split at newlines, keep the lines whose
trimmed form is non-empty (line 168). -/
def nonEmptyLinesOf (text : String) : List (List Char) :=
  (splitNl text.toList).filter (fun l => 0 < (jsTrim l).length)

/-- Classify, segment, reorder, and flatten back to the original line texts
(lines 174-281). -/
def orderedLinesOf (ls : List (List Char)) : List (List Char) :=
  ((sortBlocksInOrdering (contentBlocksOf (analyzeFrom 0 ls))).flatten).map
    (fun al => al.originalLine)

/-- fixTextOrdering (lines 163-294): with at most three non-empty lines the
text is returned unchanged, otherwise the reordered lines are joined with
newlines. -/
def fixTextOrdering (text : String) : String :=
  if (nonEmptyLinesOf text).length ≤ 3 then text
  else String.mk (joinNl (orderedLinesOf (nonEmptyLinesOf text)))

/-! ### Advanced reconstruction (reconstructMixedText, lines 339-472) -/

/-- A line record of reconstructMixedText: trimmed text, original index, and
the original line. -/
structure RLine where
  text : List Char
  originalIndex : Nat
  line : List Char
deriving DecidableEq, Repr

def sectionHeadRE : RE := calt [slit "oxford test" true, slit "cefr level" true,
  slit "overall score" true, slit "test taker" true, slit "speaking" true,
  slit "listening" true, slit "reading" true, slit "writing" true,
  slit "modules" true, slit "certificate" true]

def footerNameRE : RE := calt [slit "managing director" true, slit "deputy director" true,
  slit "oxford university press" true, slit "university of oxford" true]

def testResultsRE : RE := calt [slit "test results" true, slit "overall results" true,
  slit "cefr scale" true, slit "score guide" true, slit "results verification" true]

def capsSection7RE : RE :=
  cseq [.cls isUpperAZ, .clsRep (fun c => isUpperAZ c || isJsSpace c) 5 none]

def oxfordSection8RE : RE := calt [slit "cefr level" true, slit "overall score" true,
  slit "test taker name" true, slit "certificate reference number" true]

def mergedPattern1RE : RE := slit "overall scoreoverall cefr level" true

def mergedPattern2RE : RE := slit "date of birthtest taker number" true

def mergedPattern3RE : RE := slit "certificate reference number" true

def shouldStartNewContentBlock (currentLine nextLine : List Char)
    (currentBlock : List RLine) : Bool :=
  if reTestStart sectionHeadRE currentLine then true
  else if reSearch pageNumRE currentLine then true
  else if reSearch copyrightRE currentLine then true
  else if (match currentBlock.getLast? with
           | some lastLine => Nat.blt 80 (natDist currentLine.length lastLine.text.length)
           | none => false) then true
  else if reTestStart sectionHeadRE nextLine then true
  else if reTestStart footerNameRE currentLine then true
  else if reTestStart testResultsRE currentLine then true
  else if reTestFull capsSection7RE currentLine && Nat.blt currentLine.length 50 then true
  else if reTestStart oxfordSection8RE currentLine then true
  else if reSearch mergedPattern1RE currentLine || reSearch mergedPattern2RE currentLine ||
          reSearch mergedPattern3RE currentLine then true
  else false

def segmentGo2 (current : List RLine) (i : Nat) : List (List Char) → List (List RLine)
  | [] => if current.isEmpty then [] else [current]
  | l :: rest =>
    let nextTrim := match rest.head? with
                    | some nl => jsTrim nl
                    | none => []
    if shouldStartNewContentBlock (jsTrim l) nextTrim current && !current.isEmpty then
      current :: segmentGo2 [⟨jsTrim l, i, l⟩] (i + 1) rest
    else segmentGo2 (current ++ [⟨jsTrim l, i, l⟩]) (i + 1) rest

def getContentBlockOrder (block : List RLine) : Nat :=
  match block.head? with
  | none => 90
  | some firstItem =>
    let firstLine := toLowerL firstItem.text
    if containsSub firstLine "oxford test of english".toList &&
       containsSub firstLine "certificate".toList then 1
    else if containsSub firstLine "oxford test of english".toList then 2
    else if containsSub firstLine "test taker".toList || containsSub firstLine "name".toList ||
            containsSub firstLine "date of birth".toList then 10
    else if containsSub firstLine "overall score".toList ||
            containsSub firstLine "cefr level".toList then 20
    else if containsSub firstLine "speaking".toList then 30
    else if containsSub firstLine "listening".toList then 40
    else if containsSub firstLine "reading".toList then 50
    else if containsSub firstLine "writing".toList then 60
    else if containsSub firstLine "modules".toList || containsSub firstLine "score".toList then 70
    else if containsSub firstLine "cefr".toList && containsSub firstLine "scale".toList then 80
    else if containsSub firstLine "oxford university press".toList ||
            containsSub firstLine "university of oxford".toList then 100
    else if containsSub firstLine "copyright".toList || containsSub firstLine "©".toList then 110
    else 90

def reconstructMixedText (text : String) : String :=
  let lines := (splitNl text.toList).filter (fun l => 0 < (jsTrim l).length)
  let contentBlocks := segmentGo2 [] 0 lines
  let sorted := List.insertionSort
    (fun a b => getContentBlockOrder a ≤ getContentBlockOrder b) contentBlocks
  String.mk (joinNl (sorted.flatten.map (fun item => item.line)))

/-- The reordering slice of extractText (lines 80-85): apply fixTextOrdering,
and when its output is identical to its input apply reconstructMixedText
instead. -/
def orderedTextOf (cleanedText : String) : String :=
  let orderedText := fixTextOrdering cleanedText
  if orderedText = cleanedText then reconstructMixedText cleanedText else orderedText

/-! ### Oxford Test text repair (fixOxfordTestTextMerging, lines 520-620)

Every entry of the specificFixes and generalFixes tables of the source is
transcribed as a pattern and a replacement template, in source order.
Patterns without the case-insensitive flag are matched case-sensitively. -/

def rlit (s : String) : ReplPart := .lit s.toList

def specificFixes : List (RE × Repl) := [
  (slit "OVERALL SCOREOVERALL CEFR LEVEL" false, [rlit "OVERALL SCORE\nOVERALL CEFR LEVEL"]),
  (slit "DATE OF BIRTHTEST TAKER NUMBER" false, [rlit "DATE OF BIRTH\nTEST TAKER NUMBER"]),
  (slit "CERTIFICATE REFERENCE NUMBER" false, [rlit "CERTIFICATE REFERENCE NUMBER"]),
  (cseq [slit "B" false, sP, slit "1" false, sS, slit "1" false, sS, slit "0" false, sS,
    slit "4" false], [rlit "B1 104"]),
  (cseq [slit "MODULESCOREA" false, sS, slit "2" false, sS, slit "(51–80)B" false, sS,
    slit "1" false, sS, slit "(81–110)B" false, sS, slit "2" false, sS, slit "(111–140)" false],
   [rlit "MODULES\nSCORE\nA2 (51–80)\nB1 (81–110)\nB2 (111–140)"]),
  (slit "SCORECEFR" false, [rlit "SCORE\nCEFR"]),
  (cseq [slit "B" false, sP, slit "2" false, sP, slit "B" false, sP, slit "2" false, sP,
    slit "B" false, sP, slit "2" false], [rlit "B2 B2 B2"]),
  (cseq [slit "B" false, sP, slit "1" false, sP, slit "B" false, sP, slit "1" false],
   [rlit "B1 B1"]),
  (cseq [slit "A" false, sP, slit "2" false, sP, slit "A" false, sP, slit "2" false],
   [rlit "A2 A2"]),
  (cseq [slit "Below" false, sP, slit "A" false, sP, slit "2" false, sP, slit "Below" false,
    sP, slit "A" false, sP, slit "2" false], [rlit "Below A2 Below A2"]),
  (cseq [slit "Below" false, sP, slit "B" false, sP, slit "2" false], [rlit "Below B2"]),
  (cseq [slit "C" false, sP, slit "1" false], [rlit "C1"]),
  (cseq [slit "A" false, sP, slit "2," false, sP, slit "B" false, sP, slit "1," false, sP,
    slit "and" false, sP, slit "B" false, sP, slit "2" false], [rlit "A2, B1, and B2"]),
  (cseq [slit "A" false, sP, slit "0" false, sS, slit "3" false, sS, slit "2" false],
   [rlit "AM032"]),
  (cseq [.grp 1 (cseq [.clsRep isDigitCh 1 (some 2), sP, .clsRep isLetterAZ 1 none, sP,
      .clsRep isDigitCh 4 (some 4)]), .grp 2 (.clsRep isDigitCh 6 (some 6))],
   [.cap 1, rlit "\n", .cap 2]),
  (cseq [slit "TestingTT" false, sP, slit "1" false, sP, slit "regression" false],
   [rlit "TestingTT1 regression"]),
  (cseq [slit "B" false, sP, slit "2" false, sS, slit "(111–140)" false],
   [rlit "B2 (111–140)"]),
  (cseq [slit "A" false, sP, slit "2" false, sS, slit "(51–80)" false],
   [rlit "A2 (51–80)"]),
  (cseq [slit "B" false, sP, slit "1" false, sS, slit "(81–110)" false],
   [rlit "B1 (81–110)"]),
  (cseq [.grp 1 (cseq [digitsPlus, slit "–" false, digitsPlus]), sP, slit "C" false, sP,
    slit "2" false], [.cap 1, rlit "\nC2"]),
  (cseq [.grp 1 (cseq [digitsPlus, slit "–" false, digitsPlus]), sP,
    .grp 2 (cseq [digitsPlus, slit "–" false, digitsPlus]), sP,
    .grp 3 (cseq [digitsPlus, slit "–" false, digitsPlus]), sP,
    .grp 4 (cseq [digitsPlus, slit "–" false, digitsPlus]), sP,
    .grp 5 (cseq [digitsPlus, slit "–" false, digitsPlus]), sP,
    .grp 6 (cseq [digitsPlus, slit "–" false, digitsPlus])],
   [.cap 1, rlit "\n", .cap 2, rlit "\n", .cap 3, rlit "\n", .cap 4, rlit "\n", .cap 5,
    rlit "\n", .cap 6])]

def generalFixes : List (RE × Repl) := [
  (cseq [.grp 1 (.cls isUpperAZ), sS, .grp 2 (.clsRep isDigitCh 2 (some 3))],
   [.cap 1, .cap 2]),
  (cseq [.grp 1 (.cls isDigitCh), .grp 2 (.cls isUpperAZ)], [.cap 1, rlit " ", .cap 2]),
  (cseq [.grp 1 (.cls isUpperAZ), .grp 2 (.cls isDigitCh)], [.cap 1, rlit " ", .cap 2]),
  (.clsRep isJsSpace 2 none, [rlit " "]),
  (.clsRep (fun c => c == '\n') 3 none, [rlit "\n\n"])]

def applyFix (t : List Char) (f : RE × Repl) : List Char := reReplaceAll f.1 f.2 t

def fixOxfordTestTextMerging (text : String) : String :=
  String.mk ((specificFixes ++ generalFixes).foldl applyFix text.toList)

/-! ### Link extraction (extractLinks, lines 709-770) -/

/-- Pattern 1: full URLs with a scheme, at least eight characters after it. -/
def urlRE : RE := cseq [.wb, slit "http" true, .opt (slit "s" true), slit "://" false,
  .clsRep (fun c => !(isJsSpace c || c == '<' || c == '>' || c == '"' ||
    c == Char.ofNat 123 || c == Char.ofNat 125 || c == '|' || c == '\\' || c == '^' ||
    c == Char.ofNat 96 || c == '[' || c == ']')) 8 none, .wb]

/-- Pattern 2: email addresses. -/
def emailRE : RE := cseq [.wb,
  .clsRep (fun c => isLetterAZ c || isDigitCh c || c == '.' || c == '_' || c == '%' ||
    c == '+' || c == '-') 1 none,
  slit "@" false,
  .clsRep (fun c => isLetterAZ c || isDigitCh c || c == '.' || c == '-') 1 none,
  slit "." false, .clsRep isLetterAZ 2 none, .wb]

def isAlnumCh (c : Char) : Bool := isLetterAZ c || isDigitCh c

def domainLabelTail : RE :=
  .opt (cseq [.clsRep (fun c => isAlnumCh c || c == '-') 0 (some 61), .cls isAlnumCh])

def isPathCh (c : Char) : Bool := isAlnumCh c || c == '-' || c == '_' || c == '/'

/-- Pattern 3: bare domain names with an optional www and an optional path. -/
def domainRE : RE := cseq [.wb, .opt (slit "www." true), .cls isAlnumCh, domainLabelTail,
  .star (cseq [slit "." false, .cls isAlnumCh, domainLabelTail]),
  slit "." false, .clsRep isLetterAZ 2 none,
  .opt (cseq [slit "/" false, .clsRep isPathCh 1 none]), .wb]

/-- Pattern 4: root-relative paths ending in a known extension. -/
def relPathRE : RE := cseq [.wb, slit "/" false, .clsRep isPathCh 1 none, slit "." false,
  calt [cseq [slit "htm" true, .opt (slit "l" true)], slit "php" true, slit "asp" true,
    slit "jsp" true, slit "js" true, slit "css" true, slit "png" true, slit "jpg" true,
    slit "gif" true, slit "svg" true, slit "pdf" true], .wb]

def linkPatterns : List RE := [urlRE, emailRE, domainRE, relPathRE]

/-- False positive 1: a single-label domain with a generic top level domain. -/
def fp1RE : RE := cseq [.clsRep isLetterAZ 1 none, slit "." false,
  calt [slit "com" true, slit "org" true, slit "net" true]]

/-- False positive 2: a very short two-label domain of letters only. -/
def fp2RE : RE := cseq [.clsRep isLetterAZ 1 none, slit "." false, .clsRep isLetterAZ 1 none]

/-- False positive 3: a dotted-quad IP address. -/
def fp3RE : RE := cseq [digitsPlus, slit "." false, digitsPlus, slit "." false,
  digitsPlus, slit "." false, digitsPlus]

def isFalsePositive (link : List Char) : Bool :=
  reTestFull fp1RE link || reTestFull fp2RE link || reTestFull fp3RE link

/-- Strip one trailing run of closing punctuation, then trim (line 740). -/
def cleanLinkOf (m : List Char) : List Char :=
  jsTrim ((m.reverse.dropWhile
    (fun c => c == '.' || c == ',' || c == ';' || c == '!' || c == '?')).reverse)

/-- Insertion into a JavaScript Set: keep first-seen order, skip duplicates. -/
def setAdd (l : List (List Char)) (x : List Char) : List (List Char) :=
  if x ∈ l then l else l ++ [x]

def addMatch (acc : List (List Char)) (m : List Char) : List (List Char) :=
  if 8 ≤ (cleanLinkOf m).length ∧ (cleanLinkOf m).length ≤ 200 then
    if !isFalsePositive (cleanLinkOf m) then setAdd acc (cleanLinkOf m) else acc
  else acc

def addLineLinks (acc : List (List Char)) (line : List Char) : List (List Char) :=
  if line.length < 200 then
    linkPatterns.foldl (fun acc2 pat => (reFindAll pat line).foldl addMatch acc2) acc
  else acc

def extractLinks (text : String) : List String :=
  let lines := ((splitNl text.toList).map jsTrim).filter (fun l => 0 < l.length)
  (lines.foldl addLineLinks []).map String.mk

/-! ### Clickable links (makeLinksClickable, lines 911-950)

A links argument that is not an array is modelled as the value none; the
source replaces it by the empty array. -/

/-- The anchored domain regex of line 938 (no www alternative, no flag). -/
def clickDomainRE : RE := cseq [.cls isAlnumCh, domainLabelTail,
  .star (cseq [slit "." false, .cls isAlnumCh, domainLabelTail]),
  slit "." false, .clsRep isLetterAZ 2 none,
  .opt (cseq [slit "/" false, .clsRep isPathCh 1 none])]

def hrefFor (link : List Char) : List Char :=
  if link.contains '@' then "mailto:".toList ++ link
  else if hasPrefixL "http".toList link then link
  else if hasPrefixL "/".toList link && !hasPrefixL "//".toList link then
    "file://".toList ++ link
  else if hasPrefixL "./".toList link || hasPrefixL "../".toList link then link
  else if reTestFull clickDomainRE link then "https://".toList ++ link
  else link

def linkAnchor (link : List Char) : List Char :=
  "<a href=\"".toList ++ hrefFor link ++
  "\" target=\"_blank\" rel=\"noopener noreferrer\">".toList ++ link ++ "</a>".toList

/-- One substitution pass: the escaped link between word boundaries, replaced
globally by the anchor element. -/
def applyLinkSub (acc : List Char) (link : List Char) : List Char :=
  reReplaceAll (cseq [.wb, .lit link false, .wb]) [.lit (linkAnchor link)] acc

def makeLinksClickable (text : String) (links : Option (List String)) : String :=
  let ls := (links.getD []).map String.toList
  let sortedLinks := List.insertionSort (fun a b => b.length ≤ a.length) ls
  String.mk (sortedLinks.foldl applyLinkSub text.toList)

/-! ### Specification-side definitions

The following definitions transcribe the wording of the specification (not
the source) and are used to compare the code against it. -/

/-- The twelve enumerated line types of the specification. -/
def allLineTypes : List LineType :=
  [.title, .document_type, .header, .page_number, .date, .copyright, .status,
   .numbered_list, .lettered_list, .bullet_list, .conclusion, .content]

/-- No classifier rule matches the (trimmed) line: all twelve pattern tests
are false. -/
def noRuleMatches (t : List Char) : Prop :=
  reTestStart headerRE t = false ∧ reTestFull allCapsRE t = false ∧
  reTestStart docTypeRE t = false ∧ reSearch pageNumRE t = false ∧
  reSearch dateRE t = false ∧ reSearch copyrightRE t = false ∧
  reSearch statusRE t = false ∧ reTestStart numberedListRE t = false ∧
  reTestStart letteredListRE t = false ∧ reTestStart bulletListRE t = false ∧
  reTestStart conclusionRE1 t = false ∧ reTestStart conclusionRE2 t = false

instance (t : List Char) : Decidable (noRuleMatches t) := by
  unfold noRuleMatches; infer_instance

/-- Amended description of the classifier: the header and footer flags record
whether any rule of the respective group matched, and lineType and priority
are decided by the LAST matching group (flow markers, then list markers, then
footer patterns, then header patterns), first match winning inside a group. -/
def classifySpecCore (h1 h2 h3 f1 f2 f3 f4 n1 n2 n3 c1 c2 : Bool) : ClassR :=
  let pair : LineType × Nat :=
    if c1 || c2 then (.conclusion, 80)
    else if n1 then (.numbered_list, 50)
    else if n2 then (.lettered_list, 50)
    else if n3 then (.bullet_list, 50)
    else if f1 then (.page_number, 100)
    else if f2 then (.date, 90)
    else if f3 then (.copyright, 95)
    else if f4 then (.status, 85)
    else if h1 then (.header, 1)
    else if h2 then (.title, 1)
    else if h3 then (.document_type, 2)
    else (.content, 0)
  ⟨pair.1, pair.2, h1 || h2 || h3, f1 || f2 || f3 || f4⟩

def classRSpecOf (t : List Char) : ClassR :=
  classifySpecCore
    (reTestStart headerRE t) (reTestFull allCapsRE t) (reTestStart docTypeRE t)
    (reSearch pageNumRE t) (reSearch dateRE t) (reSearch copyrightRE t) (reSearch statusRE t)
    (reTestStart numberedListRE t) (reTestStart letteredListRE t) (reTestStart bulletListRE t)
    (reTestStart conclusionRE1 t) (reTestStart conclusionRE2 t)

def classifySpecLine (index : Nat) (line : List Char) : ALine :=
  ⟨index, jsTrim line, (classRSpecOf (jsTrim line)).lineType,
   (classRSpecOf (jsTrim line)).priority, (classRSpecOf (jsTrim line)).isHeader,
   (classRSpecOf (jsTrim line)).isFooter, line⟩

/-- The block order key exactly as worded in the specification: title 1,
document type 2, any other header 10, plain content 50, any footer 100,
else 90. -/
def orderKeySpec (block : List ALine) : Nat :=
  match block.head? with
  | none => 90
  | some f =>
    if f.lineType = .title then 1
    else if f.lineType = .document_type then 2
    else if f.isHeader = true then 10
    else if f.isHeader = false ∧ f.isFooter = false then 50
    else if f.isFooter = true then 100
    else 90

/-- The lines of a string, for stating the original segmentation claim. -/
def linesOf (s : String) : List String := (splitNl s.toList).map String.mk

instance : IsTotal (List ALine)
    (fun a b => getBlockOrderInOrdering a ≤ getBlockOrderInOrdering b) :=
  ⟨fun a b => Nat.le_total (getBlockOrderInOrdering a) (getBlockOrderInOrdering b)⟩

instance : IsTrans (List ALine)
    (fun a b => getBlockOrderInOrdering a ≤ getBlockOrderInOrdering b) :=
  ⟨fun _ _ _ hab hbc => Nat.le_trans hab hbc⟩

/-! ### Helper lemmas -/

set_option maxRecDepth 4000000

theorem segmentGo_flatten (rest : List ALine) :
    ∀ current : List ALine, (segmentGo current rest).flatten = current ++ rest := by
  induction rest with
  | nil =>
    intro current
    cases current <;> simp [segmentGo]
  | cons l rest ih =>
    intro current
    unfold segmentGo
    split
    · rw [List.flatten_cons, ih]
      simp
    · rw [ih]
      simp

theorem analyzeFrom_map_originalLine :
    ∀ (ls : List (List Char)) (i : Nat),
      (analyzeFrom i ls).map (fun al => al.originalLine) = ls := by
  intro ls
  induction ls with
  | nil => intro i; rfl
  | cons l ls ih => intro i; simp [analyzeFrom, classifyLine, ih]

theorem flatten_perm_of_perm {α : Type} {l₁ l₂ : List (List α)} (h : List.Perm l₁ l₂) :
    List.Perm l₁.flatten l₂.flatten := by
  induction h with
  | nil => rfl
  | cons x _ ih => simpa using ih.append_left x
  | swap a b l =>
    simp only [List.flatten_cons]
    rw [← List.append_assoc, ← List.append_assoc]
    exact List.perm_append_comm.append_right l.flatten
  | trans _ _ ih₁ ih₂ => exact ih₁.trans ih₂

theorem filterKey_orderedInsert {α : Type} (key : α → Nat) (x : α) (k : Nat) :
    ∀ L : List α,
      (L.orderedInsert (fun a b => key a ≤ key b) x).filter (fun b => key b == k) =
        if key x == k then x :: L.filter (fun b => key b == k)
        else L.filter (fun b => key b == k) := by
  intro L
  induction L with
  | nil =>
    cases hxk : key x == k <;> simp [List.orderedInsert, List.filter, hxk]
  | cons y ys ih =>
    by_cases hxy : key x ≤ key y
    · rw [show (y :: ys).orderedInsert (fun a b => key a ≤ key b) x = x :: y :: ys by
        simp [List.orderedInsert, hxy]]
      cases hxk : key x == k <;> simp [List.filter_cons, hxk]
    · rw [show (y :: ys).orderedInsert (fun a b => key a ≤ key b) x =
          y :: ys.orderedInsert (fun a b => key a ≤ key b) x by
        simp [List.orderedInsert, hxy]]
      have hyx : key y < key x := Nat.not_le.mp hxy
      cases hyk : key y == k
      · cases hxk : key x == k <;> simp [List.filter_cons, hyk, hxk, ih]
      · have hxk : (key x == k) = false := by
          have hy : key y = k := eq_of_beq hyk
          simp only [beq_eq_false_iff_ne, ne_eq]
          omega
        simp [List.filter_cons, hyk, hxk, ih]

theorem filterKey_insertionSort {α : Type} (key : α → Nat) (k : Nat) :
    ∀ l : List α,
      (List.insertionSort (fun a b => key a ≤ key b) l).filter (fun b => key b == k) =
        l.filter (fun b => key b == k) := by
  intro l
  induction l with
  | nil => rfl
  | cons x xs ih =>
    simp only [List.insertionSort]
    rw [filterKey_orderedInsert key x k]
    cases hxk : key x == k <;> simp [List.filter_cons, hxk, ih]

theorem getBlockOrder_eq_orderKeySpec (b : List ALine) :
    getBlockOrderInOrdering b = orderKeySpec b := by
  match b with
  | [] => rfl
  | f :: rest =>
    obtain ⟨i, t, lt, pr, ih, fo, ol⟩ := f
    cases lt <;> cases ih <;> cases fo <;> rfl

theorem classifyCore_eq_specCore :
    ∀ h1 h2 h3 f1 f2 f3 f4 n1 n2 n3 c1 c2 : Bool,
      classifyCore h1 h2 h3 f1 f2 f3 f4 n1 n2 n3 c1 c2 =
        classifySpecCore h1 h2 h3 f1 f2 f3 f4 n1 n2 n3 c1 c2 := by decide

theorem setAdd_nodup (l : List (List Char)) (x : List Char) (h : l.Nodup) :
    (setAdd l x).Nodup := by
  unfold setAdd
  split
  · exact h
  · rename_i hx
    simp [List.nodup_append, h, hx]

theorem addMatch_nodup (acc : List (List Char)) (m : List Char) (h : acc.Nodup) :
    (addMatch acc m).Nodup := by
  unfold addMatch
  split
  · split
    · exact setAdd_nodup _ _ h
    · exact h
  · exact h

theorem foldl_nodup {β : Type} (f : List (List Char) → β → List (List Char))
    (hf : ∀ acc b, acc.Nodup → (f acc b).Nodup) :
    ∀ (l : List β) (acc : List (List Char)), acc.Nodup → (l.foldl f acc).Nodup := by
  intro l
  induction l with
  | nil => intro acc h; simpa using h
  | cons b bs ih => intro acc h; exact ih _ (hf _ _ h)

theorem addLineLinks_nodup (acc : List (List Char)) (line : List Char) (h : acc.Nodup) :
    (addLineLinks acc line).Nodup := by
  unfold addLineLinks
  split
  · exact foldl_nodup _ (fun acc2 pat h2 => foldl_nodup _ addMatch_nodup _ _ h2) _ _ h
  · exact h

theorem string_mk_injective : Function.Injective String.mk := by
  intro a b h
  injection h

/-! ### Claim theorems -/

/-- C1 (amended): the lines flattened out of the reordered blocks are a
permutation of the non-empty (after trimming) input lines — no non-empty
line is dropped or duplicated — and fixTextOrdering returns exactly those
lines joined by newlines whenever more than three non-empty lines exist
(otherwise the input unchanged). Whitespace-only lines are dropped by the
reordering pass, so the permutation property holds of the non-empty lines
rather than of all lines. -/
theorem c1_reordering_permutes_nonempty_lines (t : String) :
    List.Perm (orderedLinesOf (nonEmptyLinesOf t)) (nonEmptyLinesOf t) ∧
    fixTextOrdering t = if (nonEmptyLinesOf t).length ≤ 3 then t
      else String.mk (joinNl (orderedLinesOf (nonEmptyLinesOf t))) := by
  constructor
  · unfold orderedLinesOf
    have h1 : List.Perm
        (sortBlocksInOrdering (contentBlocksOf (analyzeFrom 0 (nonEmptyLinesOf t))))
        (contentBlocksOf (analyzeFrom 0 (nonEmptyLinesOf t))) :=
      List.perm_insertionSort _ _
    have h2 := flatten_perm_of_perm h1
    have h3 : (contentBlocksOf (analyzeFrom 0 (nonEmptyLinesOf t))).flatten =
        analyzeFrom 0 (nonEmptyLinesOf t) := by
      unfold contentBlocksOf
      simpa using segmentGo_flatten _ []
    rw [h3] at h2
    have h4 := h2.map (fun al => al.originalLine)
    rwa [analyzeFrom_map_originalLine] at h4
  · rfl

/-- C1 counterexample: for the input of five lines of which one is blank,
the lines of the reordered output are not a permutation of the lines of the
input (the blank line is dropped), refuting the claim stated over all input
lines. -/
theorem c1_counterexample :
    ¬ List.Perm (linesOf (fixTextOrdering "a\n\nb\nc\nd")) (linesOf "a\n\nb\nc\nd") := by
  intro h
  have hl := h.length_eq
  revert hl
  decide

/-- C2: the block reorderer returns the same blocks (a permutation, so the
lines inside each block are untouched), sorted by the order key of the first
line, stably: for every key value the subsequence of blocks with that key is
exactly the input subsequence, in input order; and the order key realises
the mapping worded in the specification (title 1, document type 2, other
header 10, plain content 50, footer 100, else 90). -/
theorem c2_block_reorder_stable_sorted (bs : List (List ALine)) :
    List.Perm (sortBlocksInOrdering bs) bs ∧
    (sortBlocksInOrdering bs).Pairwise
      (fun a b => getBlockOrderInOrdering a ≤ getBlockOrderInOrdering b) ∧
    (∀ k : Nat, (sortBlocksInOrdering bs).filter (fun b => getBlockOrderInOrdering b == k) =
      bs.filter (fun b => getBlockOrderInOrdering b == k)) ∧
    (∀ b, getBlockOrderInOrdering b = orderKeySpec b) := by
  refine ⟨List.perm_insertionSort _ bs, ?_, ?_, getBlockOrder_eq_orderKeySpec⟩
  · exact List.sorted_insertionSort _ bs
  · intro k
    exact filterKey_insertionSort getBlockOrderInOrdering k bs

/-- C3 counterexample: the line matching the very first rule (the header
keyword pattern) is nevertheless classified as page_number, because the
footer chain runs after the header chain and overwrites lineType; so the
first matching rule does not decide the result. -/
theorem c3_counterexample :
    reTestStart headerRE (jsTrim "title page 1".toList) = true ∧
    (classifyLine 0 "title page 1".toList).lineType = LineType.page_number ∧
    LineType.page_number ≠ LineType.header := by
  refine ⟨by decide, by decide, by decide⟩

/-- C3 (amended): classification applies its four rule groups in sequence —
header patterns (first match of: header keywords, all-caps title, document
type), then footer patterns, then list markers, then flow markers — with
first match winning inside each group, but a later matching group overriding
the lineType and priority of an earlier one, while the header and footer
flags persist; equivalently, the classifier equals the last-match-wins
description classifySpecLine. -/
theorem c3_last_group_wins (index : Nat) (line : List Char) :
    classifyLine index line = classifySpecLine index line := by
  unfold classifyLine classifySpecLine classROf classRSpecOf
  rw [classifyCore_eq_specCore]

/-- C4: classification is total: every line receives one of the twelve
enumerated line types, and a line matching none of the twelve rules is the
default ClassifiedLine with lineType content, priority 0, and both flags
false. -/
theorem c4_classification_total (index : Nat) (line : List Char) :
    (classifyLine index line).lineType ∈ allLineTypes ∧
    (noRuleMatches (jsTrim line) →
      classifyLine index line =
        ⟨index, jsTrim line, LineType.content, 0, false, false, line⟩) := by
  constructor
  · have hall : ∀ lt : LineType, lt ∈ allLineTypes := by
      intro lt; cases lt <;> simp [allLineTypes]
    exact hall _
  · intro h
    obtain ⟨h1, h2, h3, h4, h5, h6, h7, h8, h9, h10, h11, h12⟩ := h
    unfold classifyLine classROf
    rw [h1, h2, h3, h4, h5, h6, h7, h8, h9, h10, h11, h12]
    rfl

/-- C4 witness: a plain line matching no rule is classified with the default
values. -/
theorem c4_classification_total_witness :
    noRuleMatches (jsTrim "zzz".toList) ∧
    classifyLine 0 "zzz".toList =
      ⟨0, jsTrim "zzz".toList, LineType.content, 0, false, false, "zzz".toList⟩ :=
  ⟨by decide, (c4_classification_total 0 "zzz".toList).2 (by decide)⟩

/-- C5 counterexample: the repair is not idempotent. On the input A032 one
application gives A 032 (the general cap-digit split), but a second
application now matches the specific A-0-3-2 pattern and rewrites to AM 032,
so applying twice differs from applying once. -/
theorem c5_counterexample :
    fixOxfordTestTextMerging (fixOxfordTestTextMerging "A032") ≠
      fixOxfordTestTextMerging "A032" := by decide

/-- C5 (amended): the repair is idempotent on already-fixed text: whenever
one application leaves the text unchanged, a second application returns the
same result. Unrestricted idempotence fails (see the counterexample). -/
theorem c5_idempotent_on_fixed (t : String) (h : fixOxfordTestTextMerging t = t) :
    fixOxfordTestTextMerging (fixOxfordTestTextMerging t) = fixOxfordTestTextMerging t := by
  rw [h]
  exact h

/-- C5 witness: the empty string is already fixed and the theorem applies to
it. -/
theorem c5_idempotent_on_fixed_witness :
    fixOxfordTestTextMerging "" = "" ∧
    fixOxfordTestTextMerging (fixOxfordTestTextMerging "") = fixOxfordTestTextMerging "" :=
  ⟨by decide, c5_idempotent_on_fixed "" (by decide)⟩

/-- C6 counterexample: on the second probe string the extractor also returns
the bare-domain match example.com/page found inside the full URL, which is
neither of the two links the claim allows, refuting that nothing else is
returned. -/
theorem c6_counterexample :
    "example.com/page" ∈
      extractLinks "Visit https://example.com/page or citizensadvice.org.uk/help" ∧
    "example.com/page" ∉
      ["https://example.com/page", "citizensadvice.org.uk/help"] := by
  refine ⟨by decide, by decide⟩

/-- C6 (amended): the first probe returns the empty list (single-label
generic-TLD domains are rejected as false positives); the second returns,
in first-seen order, exactly the full URL, the bare-domain match
example.com/page that the domain pattern also finds inside that URL, and
citizensadvice.org.uk/help. -/
theorem c6_extractLinks_values :
    extractLinks "Visit example.com or test.org today" = [] ∧
    extractLinks "Visit https://example.com/page or citizensadvice.org.uk/help" =
      ["https://example.com/page", "example.com/page", "citizensadvice.org.uk/help"] := by
  refine ⟨by decide, by decide⟩

/-- C7: the list returned by extractLinks never contains two equal strings:
insertion into the accumulated set is skipped for values already present,
and this invariant is preserved across all lines and patterns. -/
theorem c7_extractLinks_nodup (t : String) : (extractLinks t).Nodup := by
  unfold extractLinks
  exact List.Nodup.map string_mk_injective
    (foldl_nodup addLineLinks addLineLinks_nodup _ [] List.nodup_nil)

/-- C8: the secondary reconstruction pass runs exactly when the primary
reordering pass returns its input unchanged: the text produced by the
ordering slice of extractText is reconstructMixedText of the cleaned text
when fixTextOrdering left it byte-identical, and fixTextOrdering's output
otherwise. -/
theorem c8_fallback_condition (c : String) :
    (fixTextOrdering c = c → orderedTextOf c = reconstructMixedText c) ∧
    (fixTextOrdering c ≠ c → orderedTextOf c = fixTextOrdering c) := by
  constructor <;> intro h <;> simp [orderedTextOf, h]

/-- C8 witness: both branches exercised on concrete inputs: the empty text
is returned unchanged by fixTextOrdering, so reconstruction runs; the second
text is reordered (title block moved before the page-number block), so the
reordered text is returned and reconstruction is not applied. -/
theorem c8_fallback_condition_witness :
    orderedTextOf "" = reconstructMixedText "" ∧
    orderedTextOf "Page 1\nABCD\nb\nc" = fixTextOrdering "Page 1\nABCD\nb\nc" :=
  ⟨(c8_fallback_condition "").1 (by decide),
   (c8_fallback_condition "Page 1\nABCD\nb\nc").2 (by decide)⟩

/-- C9: when the links argument is not an array (modelled as none), the
renderer treats the list as empty and performs no substitution: the output
equals the input text. -/
theorem c9_nonarray_links_identity (text : String) :
    makeLinksClickable text none = text := rfl

/-- C10: when the input has at most three non-empty (after trimming) lines,
fixTextOrdering returns the input string unchanged. -/
theorem c10_short_text_unchanged (t : String)
    (h : (nonEmptyLinesOf t).length ≤ 3) : fixTextOrdering t = t := by
  unfold fixTextOrdering
  rw [if_pos h]

/-- C10 witness: a two-line input is returned unchanged. -/
theorem c10_short_text_unchanged_witness :
    (nonEmptyLinesOf "a\nb").length ≤ 3 ∧ fixTextOrdering "a\nb" = "a\nb" :=
  ⟨by decide, c10_short_text_unchanged "a\nb" (by decide)⟩
